import Mathlib

/-!
Shallow embedding of the dispatch micro-benchmark repository: the file
src/benchmarks/benchmark.rs (English comments) and the near-duplicate
src/benchmark.rs (Spanish comments), together with proofs of the
specification claims.

Modelling choices, taken from the source:
- The invocable "work" units act on an abstract program-state type σ.
  Every work body is exactly the empty inline-assembly statement, which
  has no architectural effect, so each body denotes the identity
  transformer on the state.
- Each of the three loop drivers in the source runs a for loop over
  0..ITERATIONS invoking its unit once per iteration.  They are embedded
  twice: generalized over the iteration count (the configuration the
  spec's testable properties use), and fixed at ITERATIONS as in the
  source, the latter defined as the former applied at ITERATIONS.
- main is embedded as a function from a monotone clock (the sequence of
  Instant::now readings, in nanoseconds) to the pair of the list of lines
  printed on standard output and the process exit status.  Duration
  formatting with precision 6 is modelled as rounding to microseconds and
  printing six digits after the decimal point.
-/

namespace PolyBench

/-- const ITERATIONS: u64 = 1_000_000_000 (both files, line 3). -/
def ITERATIONS : Nat := 1000000000

/-- The empty inline-assembly statement appearing in every work body:
an instruction-level barrier with no architectural effect, hence the
identity transformer on any program state. -/
def asm_barrier {σ : Type} : σ → σ := fun s => s

/-- struct ConcreteWorker, a unit struct (line 11 of both files). -/
structure ConcreteWorker

/-- impl DoWork for ConcreteWorker: fn do_work with body the empty asm
statement (src/benchmarks/benchmark.rs lines 13-18). -/
def ConcreteWorker.do_work {σ : Type} (_self : ConcreteWorker) : σ → σ :=
  asm_barrier

/-- fn work_function with body the empty asm statement
(src/benchmarks/benchmark.rs lines 28-31). -/
def work_function {σ : Type} : σ → σ :=
  asm_barrier

/-- struct InnerObject, a unit struct (line 41 of both files). -/
structure InnerObject

/-- impl InnerObject: fn action with body the empty asm statement
(src/benchmarks/benchmark.rs lines 43-48). -/
def InnerObject.action {σ : Type} (_self : InnerObject) : σ → σ :=
  asm_barrier

/-- fn run_dynamic_dispatch, generalized over the iteration count n: the
for loop over 0..n invoking worker.do_work once per iteration
(src/benchmarks/benchmark.rs lines 20-24, with n in place of ITERATIONS). -/
def run_dynamic_dispatch_n {σ : Type} (worker : σ → σ) : Nat → σ → σ
  | 0, s => s
  | n + 1, s => run_dynamic_dispatch_n worker n (worker s)

/-- fn run_function_pointer, generalized over the iteration count n: the
for loop over 0..n invoking func once per iteration
(src/benchmarks/benchmark.rs lines 33-37, with n in place of ITERATIONS). -/
def run_function_pointer_n {σ : Type} (func : σ → σ) : Nat → σ → σ
  | 0, s => s
  | n + 1, s => run_function_pointer_n func n (func s)

/-- fn run_static_dispatch, generalized over the iteration count n: the
for loop over 0..n invoking f once per iteration
(src/benchmarks/benchmark.rs lines 51-55, with n in place of ITERATIONS). -/
def run_static_dispatch_n {σ : Type} (f : σ → σ) : Nat → σ → σ
  | 0, s => s
  | n + 1, s => run_static_dispatch_n f n (f s)

/-- fn run_dynamic_dispatch as in the source: the loop runs for
0..ITERATIONS (src/benchmarks/benchmark.rs lines 20-24). -/
def run_dynamic_dispatch {σ : Type} (worker : σ → σ) (s : σ) : σ :=
  run_dynamic_dispatch_n worker ITERATIONS s

/-- fn run_function_pointer as in the source: the loop runs for
0..ITERATIONS (src/benchmarks/benchmark.rs lines 33-37). -/
def run_function_pointer {σ : Type} (func : σ → σ) (s : σ) : σ :=
  run_function_pointer_n func ITERATIONS s

/-- fn run_static_dispatch as in the source: the loop runs for
0..ITERATIONS (src/benchmarks/benchmark.rs lines 51-55). -/
def run_static_dispatch {σ : Type} (f : σ → σ) (s : σ) : σ :=
  run_static_dispatch_n f ITERATIONS s

/-- Source-level annotations of a work body: whether its body is exactly
the empty inline-assembly statement, and whether it carries the attribute
forbidding inlining of its body. -/
structure BodyAttrs where
  empty_asm_body : Bool
  inline_never : Bool

/-- Annotations of ConcreteWorker::do_work as written in the source: body
is the empty asm statement and the declaration carries the never-inline
attribute (src/benchmarks/benchmark.rs lines 14-17). -/
def do_work_attrs : BodyAttrs := BodyAttrs.mk true true

/-- Annotations of work_function as written in the source: body is the
empty asm statement and the declaration carries the never-inline
attribute (src/benchmarks/benchmark.rs lines 28-31). -/
def work_function_attrs : BodyAttrs := BodyAttrs.mk true true

/-- Annotations of InnerObject::action as written in the source: body is
the empty asm statement and the declaration carries the never-inline
attribute (src/benchmarks/benchmark.rs lines 44-47). -/
def action_attrs : BodyAttrs := BodyAttrs.mk true true

/-- Monotone clock: the sequence of Instant::now readings, in
nanoseconds, of one run of the program. -/
structure Clock where
  instant : Nat → Nat
  mono : ∀ i j, i ≤ j → instant i ≤ instant j

/-- Elapsed nanoseconds of trial i (i = 0, 1, 2): difference of the two
Instant::now readings taken around trial i's loop in main. -/
def trialDur (c : Clock) (i : Nat) : Nat :=
  c.instant (2 * i + 1) - c.instant (2 * i)

/-- Six-digit zero-padded decimal rendering of k (meaningful for
k < 10^6), one digit at a time. -/
def pad6 (k : Nat) : String :=
  toString (k / 100000 % 10) ++ toString (k / 10000 % 10) ++ toString (k / 1000 % 10)
    ++ toString (k / 100 % 10) ++ toString (k / 10 % 10) ++ toString (k % 10)

/-- Duration::as_secs_f64 rendered with precision 6, on a duration of ns
nanoseconds: seconds, a decimal point, and six decimal digits (the value
rounded to the nearest microsecond). -/
def fmtSecs6 (ns : Nat) : String :=
  let us := (ns + 500) / 1000
  toString (us / 1000000) ++ "." ++ pad6 (us % 1000000)

/-- Header printed before trial 1 by src/benchmarks/benchmark.rs line 60. -/
def enHdr1 : String := "1. Dynamic Dispatch (dyn Trait) Benchmark..."

/-- Header printed before trial 2 by src/benchmarks/benchmark.rs line 68. -/
def enHdr2 : String := "\n2. Function Pointer Benchmark..."

/-- Header printed before trial 3 by src/benchmarks/benchmark.rs line 75. -/
def enHdr3 : String := "\n3. Static Dispatch (Generics) Benchmark..."

/-- Report line printed after each trial by src/benchmarks/benchmark.rs
(lines 65, 72, 81), for a trial of d nanoseconds. -/
def enTimeLine (d : Nat) : String :=
  "   Total time: " ++ fmtSecs6 d ++ " seconds"

/-- Header printed before trial 1 by src/benchmark.rs line 77. -/
def esHdr1 : String := "1. Benchmark de Despacho Dinámico (dyn Trait)..."

/-- Header printed before trial 2 by src/benchmark.rs line 85. -/
def esHdr2 : String := "\n2. Benchmark de Puntero a Función..."

/-- Header printed before trial 3 by src/benchmark.rs line 92. -/
def esHdr3 : String := "\n3. Benchmark de Despacho Estático (Genéricos)..."

/-- Report line printed after each trial by src/benchmark.rs
(lines 82, 89, 98), for a trial of d nanoseconds. -/
def esTimeLine (d : Nat) : String :=
  "   Tiempo total: " ++ fmtSecs6 d ++ " segundos"

/-- fn main of src/benchmarks/benchmark.rs (lines 58-82): three timed
trials in fixed order, each a header print, a clock reading, the loop, a
second clock reading and a report print.  Returns the printed lines and
the process exit status.  The work units act on the trivial state Unit. -/
def mainRun_en (c : Clock) : List String × Nat :=
  let worker : ConcreteWorker := ConcreteWorker.mk
  let start1 := c.instant 0
  let _r1 : Unit := run_dynamic_dispatch (ConcreteWorker.do_work worker) ()
  let dur1 := c.instant 1 - start1
  let start2 := c.instant 2
  let _r2 : Unit := run_function_pointer work_function ()
  let dur2 := c.instant 3 - start2
  let inner : InnerObject := InnerObject.mk
  let wrapper : Unit → Unit := fun u => InnerObject.action inner u
  let start3 := c.instant 4
  let _r3 : Unit := run_static_dispatch wrapper ()
  let dur3 := c.instant 5 - start3
  ([enHdr1, enTimeLine dur1, enHdr2, enTimeLine dur2, enHdr3, enTimeLine dur3], 0)

/-- fn main of src/benchmark.rs (lines 75-99): identical structure to
mainRun_en, with the Spanish header and report strings. -/
def mainRun_es (c : Clock) : List String × Nat :=
  let worker : ConcreteWorker := ConcreteWorker.mk
  let start1 := c.instant 0
  let _r1 : Unit := run_dynamic_dispatch (ConcreteWorker.do_work worker) ()
  let dur1 := c.instant 1 - start1
  let start2 := c.instant 2
  let _r2 : Unit := run_function_pointer work_function ()
  let dur2 := c.instant 3 - start2
  let inner : InnerObject := InnerObject.mk
  let wrapper : Unit → Unit := fun u => InnerObject.action inner u
  let start3 := c.instant 4
  let _r3 : Unit := run_static_dispatch wrapper ()
  let dur3 := c.instant 5 - start3
  ([esHdr1, esTimeLine dur1, esHdr2, esTimeLine dur2, esHdr3, esTimeLine dur3], 0)

/-- struct GenericWrapper of src/benchmark.rs (lines 51-53). -/
structure GenericWrapper (T : Type) where
  inner : T

/-- impl FnOnce for GenericWrapper (src/benchmark.rs lines 55-60):
call_once forwards to self.inner. -/
def GenericWrapper.call_once {σ : Type} (self : GenericWrapper (σ → σ)) : σ → σ :=
  self.inner

/-- impl FnMut for GenericWrapper (src/benchmark.rs lines 62-66):
call_mut forwards to self.inner. -/
def GenericWrapper.call_mut {σ : Type} (self : GenericWrapper (σ → σ)) : σ → σ :=
  self.inner

/-- fn main of src/benchmark.rs, parameterized over the semantics given
to GenericWrapper's two call implementations.  The body of main (lines
75-99) contains no occurrence of GenericWrapper, call_once or call_mut,
so neither parameter is consulted. -/
def mainRun_es_gw (_gw_once _gw_mut : (Unit → Unit) → Unit → Unit) (c : Clock) :
    List String × Nat :=
  mainRun_es c

/-- A concrete clock whose every reading is 0, used for concrete runs. -/
def zeroClock : Clock :=
  Clock.mk (fun _ => 0) (fun _ _ _ => Nat.le_refl 0)

/-! Helper lemmas shared by the claim theorems. -/

theorem run_dynamic_dispatch_n_eq_iterate {σ : Type} (f : σ → σ) :
    ∀ (n : Nat) (s : σ), run_dynamic_dispatch_n f n s = f^[n] s := by
  intro n
  induction n with
  | zero => intro s; rfl
  | succ k ih =>
      intro s
      have h1 : run_dynamic_dispatch_n f (k + 1) s = run_dynamic_dispatch_n f k (f s) := rfl
      rw [h1, ih, Function.iterate_succ_apply]

theorem run_function_pointer_n_eq_iterate {σ : Type} (f : σ → σ) :
    ∀ (n : Nat) (s : σ), run_function_pointer_n f n s = f^[n] s := by
  intro n
  induction n with
  | zero => intro s; rfl
  | succ k ih =>
      intro s
      have h1 : run_function_pointer_n f (k + 1) s = run_function_pointer_n f k (f s) := rfl
      rw [h1, ih, Function.iterate_succ_apply]

theorem run_static_dispatch_n_eq_iterate {σ : Type} (f : σ → σ) :
    ∀ (n : Nat) (s : σ), run_static_dispatch_n f n s = f^[n] s := by
  intro n
  induction n with
  | zero => intro s; rfl
  | succ k ih =>
      intro s
      have h1 : run_static_dispatch_n f (k + 1) s = run_static_dispatch_n f k (f s) := rfl
      rw [h1, ih, Function.iterate_succ_apply]

theorem addOne_iterate (n : Nat) : ∀ m : Nat, (fun k => k + 1)^[n] m = m + n := by
  induction n with
  | zero => intro m; simp
  | succ k ih =>
      intro m
      rw [Function.iterate_succ_apply, ih]
      omega

theorem asm_barrier_iterate {σ : Type} (n : Nat) (s : σ) :
    (@asm_barrier σ)^[n] s = s := by
  induction n with
  | zero => rfl
  | succ k ih =>
      rw [Function.iterate_succ_apply]
      exact ih

theorem length_toString_lt10 : ∀ d : Nat, d < 10 → (toString d).length = 1 := by
  decide

theorem pad6_length (k : Nat) : (pad6 k).length = 6 := by
  unfold pad6
  rw [String.length_append, String.length_append, String.length_append,
    String.length_append, String.length_append,
    length_toString_lt10 _ (Nat.mod_lt _ (by norm_num)),
    length_toString_lt10 _ (Nat.mod_lt _ (by norm_num)),
    length_toString_lt10 _ (Nat.mod_lt _ (by norm_num)),
    length_toString_lt10 _ (Nat.mod_lt _ (by norm_num)),
    length_toString_lt10 _ (Nat.mod_lt _ (by norm_num)),
    length_toString_lt10 _ (Nat.mod_lt _ (by norm_num))]

/-! Claim theorems. -/

/-- Claim C1: each of the three loop drivers run_dynamic_dispatch,
run_function_pointer and run_static_dispatch invokes its unit exactly
ITERATIONS (1,000,000,000) times in a tight sequential loop with no other
calls to the unit: each driver's result is exactly the ITERATIONS-fold
iterate of the unit, and substituting a counting unit yields a final
count of ITERATIONS. -/
theorem drivers_invoke_exactly_iterations :
    ∀ (σ : Type) (f : σ → σ) (s : σ),
      run_dynamic_dispatch f s = f^[ITERATIONS] s ∧
      run_function_pointer f s = f^[ITERATIONS] s ∧
      run_static_dispatch f s = f^[ITERATIONS] s ∧
      run_dynamic_dispatch (fun k => k + 1) 0 = ITERATIONS ∧
      run_function_pointer (fun k => k + 1) 0 = ITERATIONS ∧
      run_static_dispatch (fun k => k + 1) 0 = ITERATIONS := by
  intro σ f s
  refine ⟨run_dynamic_dispatch_n_eq_iterate f ITERATIONS s,
    run_function_pointer_n_eq_iterate f ITERATIONS s,
    run_static_dispatch_n_eq_iterate f ITERATIONS s, ?_, ?_, ?_⟩ <;>
    simp [run_dynamic_dispatch, run_function_pointer, run_static_dispatch,
      run_dynamic_dispatch_n_eq_iterate, run_function_pointer_n_eq_iterate,
      run_static_dispatch_n_eq_iterate, addOne_iterate]

/-- Claim C2: the three dispatch mechanisms are semantically equivalent
as loop drivers: for any unit and any iteration count the three
generalized drivers compute the same result, and substituting the pure
counter increment with count 5 yields 5 for each variant independently. -/
theorem dispatch_mechanisms_equivalent :
    ∀ (σ : Type) (f : σ → σ) (n : Nat) (s : σ),
      run_dynamic_dispatch_n f n s = run_function_pointer_n f n s ∧
      run_function_pointer_n f n s = run_static_dispatch_n f n s ∧
      run_dynamic_dispatch_n (fun k => k + 1) 5 0 = 5 ∧
      run_function_pointer_n (fun k => k + 1) 5 0 = 5 ∧
      run_static_dispatch_n (fun k => k + 1) 5 0 = 5 := by
  intro σ f n s
  refine ⟨?_, ?_, by decide, by decide, by decide⟩ <;>
    simp [run_dynamic_dispatch_n_eq_iterate, run_function_pointer_n_eq_iterate,
      run_static_dispatch_n_eq_iterate]

/-- Claim C3: every invoked work body (ConcreteWorker::do_work,
work_function, InnerObject::action) has as its body exactly the empty
inline-assembly barrier and carries the annotation forbidding inlining of
its body, and semantically each body is that barrier. -/
theorem work_bodies_have_barrier_and_no_inlining :
    (do_work_attrs.empty_asm_body = true ∧ do_work_attrs.inline_never = true) ∧
    (work_function_attrs.empty_asm_body = true ∧ work_function_attrs.inline_never = true) ∧
    (action_attrs.empty_asm_body = true ∧ action_attrs.inline_never = true) ∧
    (∀ (σ : Type) (w : ConcreteWorker) (s : σ), ConcreteWorker.do_work w s = asm_barrier s) ∧
    (∀ (σ : Type) (s : σ), work_function s = asm_barrier s) ∧
    (∀ (σ : Type) (j : InnerObject) (s : σ), InnerObject.action j s = asm_barrier s) := by
  refine ⟨⟨rfl, rfl⟩, ⟨rfl, rfl⟩, ⟨rfl, rfl⟩, ?_, ?_, ?_⟩ <;> intros <;> rfl

/-- Claim C4: for every iteration count each trial loop terminates with a
defined result (the n-fold iterate of its unit); with count zero no
invocation is performed (the state is returned untouched and a counting
unit stays at 0); and each trial's measured duration is non-negative on a
monotone clock. -/
theorem loops_terminate_for_all_counts_and_zero_runs_nothing :
    ∀ (σ : Type) (f : σ → σ) (s : σ) (n : Nat) (c : Clock),
      (run_dynamic_dispatch_n f n s = f^[n] s ∧
       run_function_pointer_n f n s = f^[n] s ∧
       run_static_dispatch_n f n s = f^[n] s) ∧
      (run_dynamic_dispatch_n f 0 s = s ∧
       run_function_pointer_n f 0 s = s ∧
       run_static_dispatch_n f 0 s = s) ∧
      (run_dynamic_dispatch_n (fun k => k + 1) 0 0 = 0 ∧
       run_function_pointer_n (fun k => k + 1) 0 0 = 0 ∧
       run_static_dispatch_n (fun k => k + 1) 0 0 = 0) ∧
      ((0 : Int) ≤ (c.instant 1 : Int) - (c.instant 0 : Int) ∧
       (0 : Int) ≤ (c.instant 3 : Int) - (c.instant 2 : Int) ∧
       (0 : Int) ≤ (c.instant 5 : Int) - (c.instant 4 : Int)) := by
  intro σ f s n c
  refine ⟨⟨run_dynamic_dispatch_n_eq_iterate f n s, run_function_pointer_n_eq_iterate f n s,
    run_static_dispatch_n_eq_iterate f n s⟩, ⟨rfl, rfl, rfl⟩, ⟨rfl, rfl, rfl⟩,
    sub_nonneg.mpr ?_, sub_nonneg.mpr ?_, sub_nonneg.mpr ?_⟩ <;>
    exact_mod_cast c.mono _ _ (by omega)

/-- Claim C5: on every run the program prints, for each of the three
trials in the fixed order dynamic dispatch, function pointer, static
dispatch, a header line identifying the trial followed by a report line
whose elapsed-seconds figure carries six digits after the decimal point. -/
theorem output_three_trials_fixed_order_six_decimals :
    ∀ c : Clock,
      (mainRun_en c).1 =
        [enHdr1, enTimeLine (trialDur c 0), enHdr2, enTimeLine (trialDur c 1),
          enHdr3, enTimeLine (trialDur c 2)] ∧
      (∀ d : Nat, enTimeLine d = "   Total time: " ++ fmtSecs6 d ++ " seconds") ∧
      (∀ d : Nat, ∃ a b : String, fmtSecs6 d = a ++ "." ++ b ∧ b.length = 6) := by
  intro c
  refine ⟨rfl, fun d => rfl, fun d => ?_⟩
  exact ⟨toString (((d + 500) / 1000) / 1000000), pad6 (((d + 500) / 1000) % 1000000),
    rfl, pad6_length _⟩

/-- Claim C6: the work bodies do_work, work_function and action mutate no
program state: each is the identity on any state, and any number of
invocations of any of them leaves every value unchanged. -/
theorem work_bodies_have_no_effect :
    ∀ (σ : Type) (s : σ) (n : Nat) (w : ConcreteWorker) (j : InnerObject),
      (ConcreteWorker.do_work w)^[n] s = s ∧
      (@work_function σ)^[n] s = s ∧
      (InnerObject.action j)^[n] s = s ∧
      ConcreteWorker.do_work w s = s ∧
      work_function s = s ∧
      InnerObject.action j s = s := by
  intro σ s n w j
  refine ⟨?_, ?_, ?_, rfl, rfl, rfl⟩ <;> exact asm_barrier_iterate n s

/-- Claim C7: on every run the process exits with success status after
printing the third trial's report: the exit status is 0 and the last
printed line is the third trial's report line. -/
theorem exit_success_after_third_report :
    ∀ c : Clock,
      (mainRun_en c).2 = 0 ∧
      (mainRun_en c).1.getLast? = some (enTimeLine (trialDur c 2)) ∧
      (mainRun_en c).1.length = 6 :=
  fun _ => ⟨rfl, rfl, rfl⟩

/-- Claim C8: the program consumes no input beyond the clock and is
deterministic modulo timing: any two runs produce the same exit status
and output lists of the same fixed shape — identical header lines in
identical positions, with only the reported duration values free to
differ. -/
theorem deterministic_modulo_timing :
    ∀ c1 c2 : Clock,
      (mainRun_en c1).2 = (mainRun_en c2).2 ∧
      ∃ d1 d2 d3 e1 e2 e3 : Nat,
        (mainRun_en c1).1 =
          [enHdr1, enTimeLine d1, enHdr2, enTimeLine d2, enHdr3, enTimeLine d3] ∧
        (mainRun_en c2).1 =
          [enHdr1, enTimeLine e1, enHdr2, enTimeLine e2, enHdr3, enTimeLine e3] :=
  fun c1 c2 =>
    ⟨rfl, c1.instant 1 - c1.instant 0, c1.instant 3 - c1.instant 2,
      c1.instant 5 - c1.instant 4, c2.instant 1 - c2.instant 0,
      c2.instant 3 - c2.instant 2, c2.instant 5 - c2.instant 4, rfl, rfl⟩

/-- Claim C9 counterexample: the two source files do not produce the same
observable output — on the all-zero clock the very first printed line of
src/benchmark.rs differs from that of src/benchmarks/benchmark.rs (the
header strings are in different languages). -/
theorem spanish_english_first_lines_differ :
    (mainRun_es zeroClock).1.head? ≠ (mainRun_en zeroClock).1.head? := by
  decide

/-- Claim C9 amended: the two files share the program's structure — on
any run both print three header lines and three report lines in the same
fixed order, computed from the same trial durations, and both exit with
the same status — but the literal text of the headers and report labels
differs (Spanish versus English), and src/benchmark.rs additionally
contains the unused GenericWrapper definitions. -/
theorem spanish_english_same_structure_and_durations :
    ∀ c : Clock,
      (mainRun_es c).1 =
        [esHdr1, esTimeLine (trialDur c 0), esHdr2, esTimeLine (trialDur c 1),
          esHdr3, esTimeLine (trialDur c 2)] ∧
      (mainRun_en c).1 =
        [enHdr1, enTimeLine (trialDur c 0), enHdr2, enTimeLine (trialDur c 1),
          enHdr3, enTimeLine (trialDur c 2)] ∧
      (mainRun_es c).2 = (mainRun_en c).2 :=
  fun _ => ⟨rfl, rfl, rfl⟩

/-- Claim C10: GenericWrapper and its call implementations are dead code:
main of src/benchmark.rs never consults them, so its observable behavior
is invariant under any reinterpretation of their semantics, and with the
actual call_once and call_mut semantics it coincides with the unmodified
main. -/
theorem generic_wrapper_is_dead_code :
    ∀ (g1 g2 h1 h2 : (Unit → Unit) → Unit → Unit) (c : Clock),
      mainRun_es_gw g1 h1 c = mainRun_es_gw g2 h2 c ∧
      mainRun_es_gw (fun f => GenericWrapper.call_once (GenericWrapper.mk f))
        (fun f => GenericWrapper.call_mut (GenericWrapper.mk f)) c = mainRun_es c :=
  fun _ _ _ _ _ => ⟨rfl, rfl⟩

end PolyBench
